import Mathlib

/-!
Verification of `distributed/comm/core.py`: the scheme registry, the
deadline-bounded `connect` retry loop, the `listen` factory, and the
`Listener` scoped-acquisition semantics.

The retry loop is embedded as a function over an observation trace: each
loop iteration observes the wall-clock time when the per-attempt bound is
computed (`deadline - time()`), the outcome of the connector attempt, and
the wall-clock time at the subsequent deadline check (`time() < deadline`).
The function returns the list of externally visible events (connector
attempts with their time bound, sleeps) together with the final outcome.

Times and durations are modelled in integer milliseconds: the source's
values in seconds scale by 1000, so `gen.sleep(0.01)` sleeps 10 and the
default `timeout=3` is 3000.
-/

namespace DComm

/-- An established communication channel, opaque to the connect algorithm. -/
structure Comm where
  id : Nat
deriving DecidableEq, Repr

/-- Outcome of one connector attempt as observed by the retry loop in
`connect`: the awaited future succeeds with a `Comm`, raises an
`EnvironmentError`, is cut off by `gen.with_timeout` (raising
`gen.TimeoutError`), or raises any other exception. -/
inductive AttemptResult where
  | success (comm : Comm)
  | envError (msg : String)
  | timedOut
  | otherError (msg : String)
deriving DecidableEq, Repr

/-- One iteration of the retry loop as seen from outside: `tAttempt` is the
value of `time()` read when computing the `with_timeout` bound, `result` the
outcome of the attempt, and `tCheck` the value of `time()` read at the
`if time() < deadline` check (only consulted when the attempt raised an
`EnvironmentError`). -/
structure IterObs where
  tAttempt : Int
  result : AttemptResult
  tCheck : Int
deriving DecidableEq, Repr

def iterDefault : IterObs :=
  { tAttempt := 0, result := AttemptResult.timedOut, tCheck := 0 }

/-- Externally visible actions of the retry loop: a connector attempt
(`connector.connect(loc, deserialize=deserialize)` bounded by
`deadline - time()`) or a `gen.sleep` of the given duration. -/
inductive Event where
  | attempt (loc : String) (deserialize : Bool) (bound : Int)
  | sleep (d : Int)
deriving DecidableEq, Repr

/-- The payload of the `IOError` raised by the local `_raise` helper: the
message interpolates the requested address, the configured timeout, and the
error text. -/
structure TimeoutError where
  addr : String
  timeout : Int
  error : String
deriving DecidableEq, Repr

/-- Final outcome of `connect`: a `Comm`, the timeout `IOError` from
`_raise`, the `ValueError` for an unknown scheme, a parse failure from
`parse_address`, a propagated non-environment connector error, or loop
fuel exhaustion (the loop would keep iterating). -/
inductive ConnectResult where
  | ok (comm : Comm)
  | connectTimeout (e : TimeoutError)
  | unknownScheme (scheme : String) (addr : String)
  | parseError (addr : String)
  | propagated (msg : String)
  | exhausted
deriving DecidableEq, Repr

/-- The default text used by `_raise` when no error was recorded:
`error = error or "connect() didn't finish in time"`. -/
def defaultTimeoutMsg : String := "connect() didn\x27t finish in time"

/-- Python `error or dflt`: both `None` and the empty string are falsy. -/
def orDefault (error : Option String) (dflt : String) : String :=
  match error with
  | none => dflt
  | some s => if s = "" then dflt else s

/-- The `_raise` helper of `connect`: builds the timeout error carrying the
address, the configured timeout and the (possibly defaulted) error text. -/
def raiseTimeout (addr : String) (timeout : Int) (error : Option String) : TimeoutError :=
  { addr := addr, timeout := timeout, error := orDefault error defaultTimeoutMsg }

/-- The fixed interval slept between attempts: `gen.sleep(0.01)`, i.e. ten
milliseconds. -/
def retryInterval : Int := 10

/-- The `while True` retry loop of `connect`, driven by the observation
trace (which also serves as fuel).  Each iteration issues a connector
attempt bounded by `deadline - time()`; an `EnvironmentError` is recorded
as the last error and, when `time() < deadline`, followed by a
`gen.sleep(0.01)` and a retry, otherwise by `_raise(error)`; a
`gen.TimeoutError` triggers `_raise(error)` with the previously recorded
error; any other exception propagates; success breaks out of the loop. -/
def connectLoop (addr : String) (timeout deadline : Int) (loc : String)
    (deserialize : Bool) (error : Option String) :
    List IterObs → List Event × ConnectResult
  | [] => ([], ConnectResult.exhausted)
  | o :: rest =>
    let bound := deadline - o.tAttempt
    match o.result with
    | AttemptResult.success c =>
        ([Event.attempt loc deserialize bound], ConnectResult.ok c)
    | AttemptResult.envError m =>
        if o.tCheck < deadline then
          let next := connectLoop addr timeout deadline loc deserialize (some m) rest
          (Event.attempt loc deserialize bound :: Event.sleep retryInterval :: next.1,
           next.2)
        else
          ([Event.attempt loc deserialize bound],
           ConnectResult.connectTimeout (raiseTimeout addr timeout (some m)))
    | AttemptResult.timedOut =>
        ([Event.attempt loc deserialize bound],
         ConnectResult.connectTimeout (raiseTimeout addr timeout error))
    | AttemptResult.otherError m =>
        ([Event.attempt loc deserialize bound], ConnectResult.propagated m)

/-- Split a character list at the first occurrence of `://`. -/
def splitScheme : List Char → Option (List Char × List Char)
  | [] => none
  | ':' :: '/' :: '/' :: rest => some ([], rest)
  | c :: rest =>
    match splitScheme rest with
    | none => none
    | some (s, l) => some (c :: s, l)

/-- Modelled from the spec: `parse_address` is imported from
`distributed/comm/addressing.py`, which is not among the provided sources.
The spec states the address format is `scheme://location` and that the
parser raises a parse error on malformed input, which this core propagates
unchanged.  We split at the first `://`; an address without `://` is
malformed. -/
def parse_address (addr : String) : Option (String × String) :=
  match splitScheme addr.toList with
  | none => none
  | some (s, l) => some (String.mk s, String.mk l)

/-- Dictionary lookup `registry.get(scheme)` on the module-level `connectors`
or `listeners` dict, modelled as an association list from scheme names to
opaque connector/listener-class identifiers. -/
def lookupScheme (reg : List (String × Nat)) (scheme : String) : Option Nat :=
  match reg with
  | [] => none
  | (s, c) :: rest => if s = scheme then some c else lookupScheme rest scheme

/-- The `connect` coroutine: parse the address, resolve the connector in the
`connectors` registry (raising `ValueError` for an unknown scheme), compute
`deadline = start + timeout` with no error recorded yet, then run the retry
loop. -/
def connect (conns : List (String × Nat)) (addr : String) (timeout : Int)
    (deserialize : Bool) (startTime : Int) (trace : List IterObs) :
    List Event × ConnectResult :=
  match parse_address addr with
  | none => ([], ConnectResult.parseError addr)
  | some (scheme, loc) =>
    match lookupScheme conns scheme with
    | none => ([], ConnectResult.unknownScheme scheme addr)
    | some _ =>
        connectLoop addr timeout (startTime + timeout) loc deserialize none trace

/-- A constructed (not yet started) listener, carrying the constructor
arguments `listener_class(loc, handle_comm, deserialize)`. -/
structure ListenerState where
  loc : String
  handler : Nat
  deserialize : Bool
  started : Bool
deriving DecidableEq, Repr

/-- Final outcome of `listen`. -/
inductive ListenResult where
  | ok (l : ListenerState)
  | unknownScheme (scheme : String) (addr : String)
  | parseError (addr : String)
deriving DecidableEq, Repr

/-- Modelled from the spec: concrete listener classes are transport-side and
absent from the provided sources.  The spec states a Listener is "created in
a stopped state" and that "construction must not start accepting", so the
factory records the constructor arguments with `started := false`. -/
def listener_factory (loc : String) (handler : Nat) (deserialize : Bool) :
    ListenerState :=
  { loc := loc, handler := handler, deserialize := deserialize, started := false }

/-- The `listen` function: parse the address, resolve the listener class in
the `listeners` registry (raising `ValueError` for an unknown scheme), and
return `listener_class(loc, handle_comm, deserialize)`. -/
def listen (lists : List (String × Nat)) (addr : String) (handle_comm : Nat)
    (deserialize : Bool) : ListenResult :=
  match parse_address addr with
  | none => ListenResult.parseError addr
  | some (scheme, loc) =>
    match lookupScheme lists scheme with
    | none => ListenResult.unknownScheme scheme addr
    | some _ => ListenResult.ok (listener_factory loc handle_comm deserialize)

/-- Runtime view of a listener used through the context manager: call
counters for `start()` and `stop()`. -/
structure ListenerRT where
  id : Nat
  startCalls : Nat
  stopCalls : Nat
deriving DecidableEq, Repr

/-- `Listener.__enter__`: `self.start(); return self`. -/
def listenerEnter (l : ListenerRT) : ListenerRT × ListenerRT :=
  let l2 := { l with startCalls := l.startCalls + 1 }
  (l2, l2)

/-- `Listener.__exit__`: `self.stop()`, run on every exit path. -/
def listenerExit (l : ListenerRT) : ListenerRT :=
  { l with stopCalls := l.stopCalls + 1 }

/-- The `with listener:` statement: `__enter__` yields the listener to the
body, and `__exit__` runs whether the body returns normally or raises; since
`__exit__` returns `None`, a body exception is re-raised afterwards. -/
def withListener (l : ListenerRT) (body : ListenerRT → Except String Unit) :
    ListenerRT × Except String Unit :=
  let p := listenerEnter l
  let r := body p.2
  (listenerExit p.1, r)

/-- The per-attempt time bounds of an event trace, in order. -/
def attemptBounds : List Event → List Int
  | [] => []
  | Event.attempt _ _ b :: rest => b :: attemptBounds rest
  | Event.sleep _ :: rest => attemptBounds rest

/-- Number of sleeps in an event trace. -/
def countSleeps : List Event → Nat
  | [] => 0
  | Event.attempt _ _ _ :: rest => countSleeps rest
  | Event.sleep _ :: rest => countSleeps rest + 1

/-- The last recorded transient error after processing a trace prefix,
starting from `error`. -/
def lastEnv (error : Option String) : List IterObs → Option String
  | [] => error
  | o :: rest =>
    match o.result with
    | AttemptResult.envError m => lastEnv (some m) rest
    | _ => lastEnv error rest

example : parse_address "tcp://127.0.0.1:1234" = some ("tcp", "127.0.0.1:1234") := by
  decide

example : parse_address "bogus" = none := by decide

example :
    connect [("tcp", 0)] "tcp://h" 3 true 0
        [{ tAttempt := 0, result := AttemptResult.success { id := 5 }, tCheck := 0 }]
      = ([Event.attempt "h" true 3], ConnectResult.ok { id := 5 }) := by
  decide

example :
    connect [("tcp", 0)] "tcp://h" 3000 true 0
        [{ tAttempt := 0, result := AttemptResult.envError "refused", tCheck := 1000 },
         { tAttempt := 2000, result := AttemptResult.timedOut, tCheck := 2000 }]
      = ([Event.attempt "h" true 3000, Event.sleep 10, Event.attempt "h" true 1000],
         ConnectResult.connectTimeout
           { addr := "tcp://h", timeout := 3000, error := "refused" }) := by
  decide

/-- C3: For every address whose scheme has no registered entry, `connect`
and `listen` fail immediately with the unknown-scheme error; the event
trace of `connect` is empty, so there is no connector attempt, no retry
and no sleep. -/
theorem unknown_scheme_fails_immediately (conns lists : List (String × Nat))
    (addr scheme loc : String) (timeout : Int) (deserialize : Bool)
    (startTime : Int) (trace : List IterObs) (handle_comm : Nat)
    (hparse : parse_address addr = some (scheme, loc))
    (hc : lookupScheme conns scheme = none)
    (hl : lookupScheme lists scheme = none) :
    connect conns addr timeout deserialize startTime trace
        = ([], ConnectResult.unknownScheme scheme addr) ∧
    listen lists addr handle_comm deserialize
        = ListenResult.unknownScheme scheme addr := by
  constructor
  · simp only [connect, hparse, hc]
  · simp only [listen, hparse, hl]

theorem unknown_scheme_fails_immediately_witness :
    connect [("tcp", 0)] "bogus://host" 3000 true 0
        [{ tAttempt := 0, result := AttemptResult.timedOut, tCheck := 0 }]
      = ([], ConnectResult.unknownScheme "bogus" "bogus://host") ∧
    listen [("tcp", 0)] "bogus://host" 7 true
      = ListenResult.unknownScheme "bogus" "bogus://host" :=
  unknown_scheme_fails_immediately [("tcp", 0)] [("tcp", 0)] "bogus://host" "bogus"
    "host" 3000 true 0
    [{ tAttempt := 0, result := AttemptResult.timedOut, tCheck := 0 }] 7
    (by decide) (by decide) (by decide)

/-- C6: For every registered scheme whose connector succeeds on the first
attempt, `connect` returns the Comm produced by that attempt; the event
trace is that single attempt, so the loop exits immediately and performs
zero sleeps. -/
theorem connect_first_attempt_success (conns : List (String × Nat))
    (addr scheme loc : String) (cid : Nat) (timeout : Int) (deserialize : Bool)
    (startTime : Int) (o : IterObs) (rest : List IterObs) (c : Comm)
    (hparse : parse_address addr = some (scheme, loc))
    (hlook : lookupScheme conns scheme = some cid)
    (hres : o.result = AttemptResult.success c) :
    connect conns addr timeout deserialize startTime (o :: rest)
        = ([Event.attempt loc deserialize (startTime + timeout - o.tAttempt)],
           ConnectResult.ok c) ∧
    countSleeps (connect conns addr timeout deserialize startTime (o :: rest)).1 = 0 := by
  have h : connect conns addr timeout deserialize startTime (o :: rest)
      = ([Event.attempt loc deserialize (startTime + timeout - o.tAttempt)],
         ConnectResult.ok c) := by
    simp only [connect, hparse, hlook, connectLoop, hres]
  exact ⟨h, by rw [h]; rfl⟩

theorem connect_first_attempt_success_witness :
    connect [("tcp", 0)] "tcp://127.0.0.1:1234" 3000 true 100
        [{ tAttempt := 100, result := AttemptResult.success { id := 5 }, tCheck := 100 }]
      = ([Event.attempt "127.0.0.1:1234" true 3000], ConnectResult.ok { id := 5 }) ∧
    countSleeps
        (connect [("tcp", 0)] "tcp://127.0.0.1:1234" 3000 true 100
          [{ tAttempt := 100, result := AttemptResult.success { id := 5 }, tCheck := 100 }]).1
      = 0 := by
  have h := connect_first_attempt_success [("tcp", 0)] "tcp://127.0.0.1:1234" "tcp"
    "127.0.0.1:1234" 0 3000 true 100
    { tAttempt := 100, result := AttemptResult.success { id := 5 }, tCheck := 100 } []
    { id := 5 } (by decide) (by decide) (by decide)
  exact ⟨by rw [h.1]; decide, h.2⟩

/-- C8: For every address with a registered scheme, `listen` resolves the
listener factory and returns a Listener constructed from the location, the
handler and the deserialize flag, without starting it: the constructed
listener is in the stopped state. -/
theorem listen_constructs_unstarted (lists : List (String × Nat))
    (addr scheme loc : String) (handle_comm : Nat) (deserialize : Bool) (lid : Nat)
    (hparse : parse_address addr = some (scheme, loc))
    (hlook : lookupScheme lists scheme = some lid) :
    listen lists addr handle_comm deserialize
      = ListenResult.ok
          { loc := loc, handler := handle_comm, deserialize := deserialize,
            started := false } := by
  simp only [listen, hparse, hlook, listener_factory]

theorem listen_constructs_unstarted_witness :
    listen [("tcp", 0)] "tcp://0.0.0.0:0" 7 true
      = ListenResult.ok
          { loc := "0.0.0.0:0", handler := 7, deserialize := true, started := false } :=
  listen_constructs_unstarted [("tcp", 0)] "tcp://0.0.0.0:0" "tcp" "0.0.0.0:0" 7 true 0
    (by decide) (by decide)

/-- C9: Using a Listener through the context manager calls `start()` exactly
once on entry, yields the listener itself to the enclosed body, and calls
`stop()` exactly once on exit, whether the body returns normally or
raises. -/
theorem withListener_start_stop_once (l : ListenerRT)
    (body : ListenerRT → Except String Unit) :
    (withListener l body).1.startCalls = l.startCalls + 1 ∧
    (withListener l body).1.stopCalls = l.stopCalls + 1 ∧
    (withListener l body).1.id = l.id ∧
    (withListener l body).2 = body { l with startCalls := l.startCalls + 1 } :=
  ⟨rfl, rfl, rfl, rfl⟩

/-- C1: When a connector attempt raises a transient (environment-class)
error, its text is recorded as the last error; if the current time is still
strictly before the deadline, the loop sleeps the fixed 10 ms interval and
retries carrying the recorded error, otherwise it fails with the timeout
error built from that recorded error. -/
theorem connect_env_error_sleeps_or_times_out
    (addr : String) (timeout deadline : Int) (loc : String) (deserialize : Bool)
    (error : Option String) (o : IterObs) (rest : List IterObs) (m : String)
    (hres : o.result = AttemptResult.envError m) :
    (o.tCheck < deadline →
      connectLoop addr timeout deadline loc deserialize error (o :: rest)
        = (Event.attempt loc deserialize (deadline - o.tAttempt)
             :: Event.sleep retryInterval
             :: (connectLoop addr timeout deadline loc deserialize (some m) rest).1,
           (connectLoop addr timeout deadline loc deserialize (some m) rest).2)) ∧
    (deadline ≤ o.tCheck →
      connectLoop addr timeout deadline loc deserialize error (o :: rest)
        = ([Event.attempt loc deserialize (deadline - o.tAttempt)],
           ConnectResult.connectTimeout (raiseTimeout addr timeout (some m)))) := by
  constructor
  · intro h
    simp only [connectLoop, hres, if_pos h]
  · intro h
    simp only [connectLoop, hres, if_neg (not_lt.mpr h)]

theorem connect_env_error_sleeps_or_times_out_witness :
    connectLoop "tcp://h" 3000 3000 "h" true none
        [{ tAttempt := 0, result := AttemptResult.envError "refused", tCheck := 1000 },
         { tAttempt := 2000, result := AttemptResult.timedOut, tCheck := 2000 }]
      = (Event.attempt "h" true 3000 :: Event.sleep retryInterval ::
           (connectLoop "tcp://h" 3000 3000 "h" true (some "refused")
               [{ tAttempt := 2000, result := AttemptResult.timedOut, tCheck := 2000 }]).1,
         (connectLoop "tcp://h" 3000 3000 "h" true (some "refused")
             [{ tAttempt := 2000, result := AttemptResult.timedOut, tCheck := 2000 }]).2) ∧
    connectLoop "tcp://h" 3000 3000 "h" true none
        [{ tAttempt := 2999, result := AttemptResult.envError "refused", tCheck := 3000 }]
      = ([Event.attempt "h" true 1],
         ConnectResult.connectTimeout (raiseTimeout "tcp://h" 3000 (some "refused"))) :=
  ⟨(connect_env_error_sleeps_or_times_out "tcp://h" 3000 3000 "h" true none
      { tAttempt := 0, result := AttemptResult.envError "refused", tCheck := 1000 }
      [{ tAttempt := 2000, result := AttemptResult.timedOut, tCheck := 2000 }]
      "refused" rfl).1 (by decide),
   (connect_env_error_sleeps_or_times_out "tcp://h" 3000 3000 "h" true none
      { tAttempt := 2999, result := AttemptResult.envError "refused", tCheck := 3000 }
      [] "refused" rfl).2 (by decide)⟩

/-- C5: If a connector attempt times out against its per-attempt bound, the
loop fails with the timeout error built from the last recorded transient
error, and when that happens on the very first attempt, with no error
recorded yet, the error text falls back to the default message. -/
theorem connect_attempt_timeout_uses_last_error
    (addr : String) (timeout deadline : Int) (loc : String) (deserialize : Bool)
    (error : Option String) (o : IterObs) (rest : List IterObs)
    (hres : o.result = AttemptResult.timedOut) :
    connectLoop addr timeout deadline loc deserialize error (o :: rest)
      = ([Event.attempt loc deserialize (deadline - o.tAttempt)],
         ConnectResult.connectTimeout (raiseTimeout addr timeout error)) ∧
    (error = none →
      (raiseTimeout addr timeout error).error = defaultTimeoutMsg) := by
  constructor
  · simp only [connectLoop, hres]
  · intro h
    subst h
    rfl

theorem connect_attempt_timeout_uses_last_error_witness :
    connectLoop "tcp://h" 3000 3000 "h" true none
        [{ tAttempt := 10, result := AttemptResult.timedOut, tCheck := 10 }]
      = ([Event.attempt "h" true 2990],
         ConnectResult.connectTimeout (raiseTimeout "tcp://h" 3000 none)) ∧
    (raiseTimeout "tcp://h" 3000 none).error = defaultTimeoutMsg :=
  ⟨(connect_attempt_timeout_uses_last_error "tcp://h" 3000 3000 "h" true none
      { tAttempt := 10, result := AttemptResult.timedOut, tCheck := 10 } [] rfl).1,
   (connect_attempt_timeout_uses_last_error "tcp://h" 3000 3000 "h" true none
      { tAttempt := 10, result := AttemptResult.timedOut, tCheck := 10 } [] rfl).2 rfl⟩

/-- C7: During the retry loop, a transient environment-class error observed
strictly before the deadline is swallowed: the final outcome is that of the
loop continued with the error recorded; any other connector error
propagates immediately after that single attempt, with no sleep and no
further attempts. -/
theorem connect_error_propagation_policy
    (addr : String) (timeout deadline : Int) (loc : String) (deserialize : Bool)
    (error : Option String) (o : IterObs) (rest : List IterObs) :
    (∀ m, o.result = AttemptResult.otherError m →
      connectLoop addr timeout deadline loc deserialize error (o :: rest)
        = ([Event.attempt loc deserialize (deadline - o.tAttempt)],
           ConnectResult.propagated m)) ∧
    (∀ m, o.result = AttemptResult.envError m → o.tCheck < deadline →
      (connectLoop addr timeout deadline loc deserialize error (o :: rest)).2
        = (connectLoop addr timeout deadline loc deserialize (some m) rest).2) := by
  constructor
  · intro m hres
    simp only [connectLoop, hres]
  · intro m hres h
    simp only [connectLoop, hres, if_pos h]

theorem connect_error_propagation_policy_witness :
    connectLoop "tcp://h" 3000 3000 "h" true none
        [{ tAttempt := 0, result := AttemptResult.otherError "bad handshake", tCheck := 0 },
         { tAttempt := 1, result := AttemptResult.timedOut, tCheck := 1 }]
      = ([Event.attempt "h" true 3000], ConnectResult.propagated "bad handshake") ∧
    (connectLoop "tcp://h" 3000 3000 "h" true none
        [{ tAttempt := 0, result := AttemptResult.envError "refused", tCheck := 1000 },
         { tAttempt := 2000, result := AttemptResult.timedOut, tCheck := 2000 }]).2
      = (connectLoop "tcp://h" 3000 3000 "h" true (some "refused")
          [{ tAttempt := 2000, result := AttemptResult.timedOut, tCheck := 2000 }]).2 :=
  ⟨(connect_error_propagation_policy "tcp://h" 3000 3000 "h" true none
      { tAttempt := 0, result := AttemptResult.otherError "bad handshake", tCheck := 0 }
      [{ tAttempt := 1, result := AttemptResult.timedOut, tCheck := 1 }]).1
      "bad handshake" rfl,
   (connect_error_propagation_policy "tcp://h" 3000 3000 "h" true none
      { tAttempt := 0, result := AttemptResult.envError "refused", tCheck := 1000 }
      [{ tAttempt := 2000, result := AttemptResult.timedOut, tCheck := 2000 }]).2
      "refused" rfl (by decide)⟩

/-- Unfolding: a first-attempt success exits the loop with the Comm. -/
theorem connectLoop_cons_success (addr : String) (timeout deadline : Int)
    (loc : String) (deserialize : Bool) (error : Option String)
    (o : IterObs) (rest : List IterObs) (c : Comm)
    (hres : o.result = AttemptResult.success c) :
    connectLoop addr timeout deadline loc deserialize error (o :: rest)
      = ([Event.attempt loc deserialize (deadline - o.tAttempt)],
         ConnectResult.ok c) := by
  simp only [connectLoop, hres]

/-- Unfolding: a transient error before the deadline records the error,
sleeps, and continues. -/
theorem connectLoop_cons_env_retry (addr : String) (timeout deadline : Int)
    (loc : String) (deserialize : Bool) (error : Option String)
    (o : IterObs) (rest : List IterObs) (m : String)
    (hres : o.result = AttemptResult.envError m) (hlt : o.tCheck < deadline) :
    connectLoop addr timeout deadline loc deserialize error (o :: rest)
      = (Event.attempt loc deserialize (deadline - o.tAttempt)
           :: Event.sleep retryInterval
           :: (connectLoop addr timeout deadline loc deserialize (some m) rest).1,
         (connectLoop addr timeout deadline loc deserialize (some m) rest).2) := by
  simp only [connectLoop, hres, if_pos hlt]

/-- Unfolding: a transient error at or past the deadline raises the timeout
error from the just-recorded error. -/
theorem connectLoop_cons_env_fail (addr : String) (timeout deadline : Int)
    (loc : String) (deserialize : Bool) (error : Option String)
    (o : IterObs) (rest : List IterObs) (m : String)
    (hres : o.result = AttemptResult.envError m) (hge : ¬ o.tCheck < deadline) :
    connectLoop addr timeout deadline loc deserialize error (o :: rest)
      = ([Event.attempt loc deserialize (deadline - o.tAttempt)],
         ConnectResult.connectTimeout (raiseTimeout addr timeout (some m))) := by
  simp only [connectLoop, hres, if_neg hge]

/-- Unfolding: a per-attempt timeout raises the timeout error from the last
recorded error. -/
theorem connectLoop_cons_timedOut (addr : String) (timeout deadline : Int)
    (loc : String) (deserialize : Bool) (error : Option String)
    (o : IterObs) (rest : List IterObs)
    (hres : o.result = AttemptResult.timedOut) :
    connectLoop addr timeout deadline loc deserialize error (o :: rest)
      = ([Event.attempt loc deserialize (deadline - o.tAttempt)],
         ConnectResult.connectTimeout (raiseTimeout addr timeout error)) := by
  simp only [connectLoop, hres]

/-- Unfolding: any other connector error propagates out of the loop. -/
theorem connectLoop_cons_other (addr : String) (timeout deadline : Int)
    (loc : String) (deserialize : Bool) (error : Option String)
    (o : IterObs) (rest : List IterObs) (m : String)
    (hres : o.result = AttemptResult.otherError m) :
    connectLoop addr timeout deadline loc deserialize error (o :: rest)
      = ([Event.attempt loc deserialize (deadline - o.tAttempt)],
         ConnectResult.propagated m) := by
  simp only [connectLoop, hres]

/-- Every loop iteration issues its connector attempt first: on a non-empty
trace the event list starts with the attempt, whatever the outcome. -/
theorem connectLoop_cons_head (addr : String) (timeout deadline : Int)
    (loc : String) (deserialize : Bool) (error : Option String)
    (o : IterObs) (rest : List IterObs) :
    ∃ evs, (connectLoop addr timeout deadline loc deserialize error (o :: rest)).1
      = Event.attempt loc deserialize (deadline - o.tAttempt) :: evs := by
  cases hres : o.result with
  | success c =>
    exact ⟨[], by rw [connectLoop_cons_success addr timeout deadline loc deserialize
      error o rest c hres]⟩
  | envError m =>
    by_cases hlt : o.tCheck < deadline
    · exact ⟨_, by rw [connectLoop_cons_env_retry addr timeout deadline loc deserialize
        error o rest m hres hlt]⟩
    · exact ⟨[], by rw [connectLoop_cons_env_fail addr timeout deadline loc deserialize
        error o rest m hres hlt]⟩
  | timedOut =>
    exact ⟨[], by rw [connectLoop_cons_timedOut addr timeout deadline loc deserialize
      error o rest hres]⟩
  | otherError m =>
    exact ⟨[], by rw [connectLoop_cons_other addr timeout deadline loc deserialize
      error o rest m hres]⟩

/-- C10: For every registered scheme, whenever `connect` fails with the
timeout error — including with a zero or negative timeout, where the
deadline has already passed on entry — at least one connector attempt was
issued, and it is the very first event, before any deadline check. -/
theorem connect_attempts_before_timeout (conns : List (String × Nat))
    (addr scheme loc : String) (cid : Nat) (timeout : Int) (deserialize : Bool)
    (startTime : Int) (trace : List IterObs) (e : TimeoutError)
    (hparse : parse_address addr = some (scheme, loc))
    (hlook : lookupScheme conns scheme = some cid)
    (htimeout : (connect conns addr timeout deserialize startTime trace).2
        = ConnectResult.connectTimeout e) :
    ∃ evs, (connect conns addr timeout deserialize startTime trace).1
        = Event.attempt loc deserialize
            ((startTime + timeout) - (trace.headD iterDefault).tAttempt) :: evs := by
  have hc : connect conns addr timeout deserialize startTime trace
      = connectLoop addr timeout (startTime + timeout) loc deserialize none trace := by
    simp only [connect, hparse, hlook]
  cases trace with
  | nil =>
    rw [hc] at htimeout
    exact absurd htimeout (by simp [connectLoop])
  | cons o rest =>
    rw [hc]
    exact connectLoop_cons_head addr timeout (startTime + timeout) loc deserialize
      none o rest

theorem connect_attempts_before_timeout_witness :
    ∃ evs, (connect [("tcp", 0)] "tcp://h" (-5) true 0
        [{ tAttempt := 0, result := AttemptResult.timedOut, tCheck := 0 }]).1
      = Event.attempt "h" true (-5) :: evs :=
  connect_attempts_before_timeout [("tcp", 0)] "tcp://h" "tcp" "h" 0 (-5) true 0
    [{ tAttempt := 0, result := AttemptResult.timedOut, tCheck := 0 }]
    (raiseTimeout "tcp://h" (-5) none) (by decide) (by decide) (by decide)

/-- The i-th connector attempt of the loop is bounded by the remaining time
to the deadline as observed at that attempt: `deadline - time()`. -/
theorem connectLoop_bound_is_remaining (addr : String) (timeout deadline : Int)
    (loc : String) (deserialize : Bool) :
    ∀ (trace : List IterObs) (error : Option String) (i : Nat),
      i < (attemptBounds
            (connectLoop addr timeout deadline loc deserialize error trace).1).length →
      (attemptBounds
          (connectLoop addr timeout deadline loc deserialize error trace).1).getD i 0
        = deadline - (trace.getD i iterDefault).tAttempt := by
  intro trace
  induction trace with
  | nil =>
    intro error i h
    simp [connectLoop, attemptBounds] at h
  | cons o rest ih =>
    intro error i h
    cases hres : o.result with
    | success c =>
      rw [connectLoop_cons_success addr timeout deadline loc deserialize error
        o rest c hres] at h ⊢
      cases i with
      | zero => simp [attemptBounds]
      | succ j => simp [attemptBounds] at h
    | envError m =>
      by_cases hlt : o.tCheck < deadline
      · rw [connectLoop_cons_env_retry addr timeout deadline loc deserialize error
          o rest m hres hlt] at h ⊢
        cases i with
        | zero => simp [attemptBounds]
        | succ j =>
          simp only [attemptBounds, List.length_cons, Nat.succ_lt_succ_iff] at h
          simpa [attemptBounds] using ih (some m) j h
      · rw [connectLoop_cons_env_fail addr timeout deadline loc deserialize error
          o rest m hres hlt] at h ⊢
        cases i with
        | zero => simp [attemptBounds]
        | succ j => simp [attemptBounds] at h
    | timedOut =>
      rw [connectLoop_cons_timedOut addr timeout deadline loc deserialize error
        o rest hres] at h ⊢
      cases i with
      | zero => simp [attemptBounds]
      | succ j => simp [attemptBounds] at h
    | otherError m =>
      rw [connectLoop_cons_other addr timeout deadline loc deserialize error
        o rest m hres] at h ⊢
      cases i with
      | zero => simp [attemptBounds]
      | succ j => simp [attemptBounds] at h

/-- C2: In every iteration of the retry loop, the connector attempt is
bounded by the remaining time until the deadline — `deadline - time()` as
observed at that attempt — not by the original timeout; consequently, when
the observed times increase across retries, successive attempts get
strictly shrinking time budgets. -/
theorem connect_shrinking_budget (conns : List (String × Nat))
    (addr scheme loc : String) (cid : Nat) (timeout : Int) (deserialize : Bool)
    (startTime : Int) (trace : List IterObs)
    (hparse : parse_address addr = some (scheme, loc))
    (hlook : lookupScheme conns scheme = some cid) :
    (∀ i,
      i < (attemptBounds
            (connect conns addr timeout deserialize startTime trace).1).length →
      (attemptBounds
          (connect conns addr timeout deserialize startTime trace).1).getD i 0
        = (startTime + timeout) - (trace.getD i iterDefault).tAttempt) ∧
    (∀ i j, i < j →
      j < (attemptBounds
            (connect conns addr timeout deserialize startTime trace).1).length →
      (trace.getD i iterDefault).tAttempt < (trace.getD j iterDefault).tAttempt →
      (attemptBounds
          (connect conns addr timeout deserialize startTime trace).1).getD j 0
        < (attemptBounds
            (connect conns addr timeout deserialize startTime trace).1).getD i 0) := by
  have hc : connect conns addr timeout deserialize startTime trace
      = connectLoop addr timeout (startTime + timeout) loc deserialize none trace := by
    simp only [connect, hparse, hlook]
  rw [hc]
  have hpt := connectLoop_bound_is_remaining addr timeout (startTime + timeout)
    loc deserialize trace none
  refine ⟨hpt, ?_⟩
  intro i j hij hj ht
  rw [hpt i (lt_trans hij hj), hpt j hj]
  omega

theorem connect_shrinking_budget_witness :
    (attemptBounds
        (connect [("tcp", 0)] "tcp://h" 3000 true 0
          [{ tAttempt := 0, result := AttemptResult.envError "refused", tCheck := 500 },
           { tAttempt := 510, result := AttemptResult.envError "refused", tCheck := 900 },
           { tAttempt := 910, result := AttemptResult.timedOut, tCheck := 910 }]).1).getD 1 0
      = 3000 - 510 ∧
    (attemptBounds
        (connect [("tcp", 0)] "tcp://h" 3000 true 0
          [{ tAttempt := 0, result := AttemptResult.envError "refused", tCheck := 500 },
           { tAttempt := 510, result := AttemptResult.envError "refused", tCheck := 900 },
           { tAttempt := 910, result := AttemptResult.timedOut, tCheck := 910 }]).1).getD 2 0
      < (attemptBounds
          (connect [("tcp", 0)] "tcp://h" 3000 true 0
            [{ tAttempt := 0, result := AttemptResult.envError "refused", tCheck := 500 },
             { tAttempt := 510, result := AttemptResult.envError "refused", tCheck := 900 },
             { tAttempt := 910, result := AttemptResult.timedOut, tCheck := 910 }]).1).getD 0 0 :=
  ⟨(connect_shrinking_budget [("tcp", 0)] "tcp://h" "tcp" "h" 0 3000 true 0
      [{ tAttempt := 0, result := AttemptResult.envError "refused", tCheck := 500 },
       { tAttempt := 510, result := AttemptResult.envError "refused", tCheck := 900 },
       { tAttempt := 910, result := AttemptResult.timedOut, tCheck := 910 }]
      (by decide) (by decide)).1 1 (by decide),
   (connect_shrinking_budget [("tcp", 0)] "tcp://h" "tcp" "h" 0 3000 true 0
      [{ tAttempt := 0, result := AttemptResult.envError "refused", tCheck := 500 },
       { tAttempt := 510, result := AttemptResult.envError "refused", tCheck := 900 },
       { tAttempt := 910, result := AttemptResult.timedOut, tCheck := 910 }]
      (by decide) (by decide)).2 0 2 (by decide) (by decide) (by decide)⟩

/-- If the loop ends in the timeout error, the error carries the address
and the configured timeout, and its text is the last transient error
recorded up to the failing iteration (a take-prefix of the trace),
defaulted when none was recorded. -/
theorem connectLoop_timeout_carries (addr : String) (timeout deadline : Int)
    (loc : String) (deserialize : Bool) :
    ∀ (trace : List IterObs) (error : Option String) (e : TimeoutError),
      (connectLoop addr timeout deadline loc deserialize error trace).2
        = ConnectResult.connectTimeout e →
      e.addr = addr ∧ e.timeout = timeout ∧
      ∃ k, k ≤ trace.length ∧
        e.error = orDefault (lastEnv error (trace.take k)) defaultTimeoutMsg := by
  intro trace
  induction trace with
  | nil =>
    intro error e h
    exact absurd h (by simp [connectLoop])
  | cons o rest ih =>
    intro error e h
    cases hres : o.result with
    | success c =>
      rw [connectLoop_cons_success addr timeout deadline loc deserialize error
        o rest c hres] at h
      exact absurd h (by simp)
    | envError m =>
      by_cases hlt : o.tCheck < deadline
      · rw [connectLoop_cons_env_retry addr timeout deadline loc deserialize error
          o rest m hres hlt] at h
        obtain ⟨h1, h2, k, hk, he⟩ := ih (some m) e h
        refine ⟨h1, h2, k + 1, Nat.succ_le_succ hk, ?_⟩
        simpa [lastEnv, hres] using he
      · rw [connectLoop_cons_env_fail addr timeout deadline loc deserialize error
          o rest m hres hlt] at h
        injection h with h
        subst h
        exact ⟨rfl, rfl, 1, Nat.succ_le_succ (Nat.zero_le _),
          by simp [lastEnv, hres, raiseTimeout]⟩
    | timedOut =>
      rw [connectLoop_cons_timedOut addr timeout deadline loc deserialize error
        o rest hres] at h
      injection h with h
      subst h
      exact ⟨rfl, rfl, 0, Nat.zero_le _, rfl⟩
    | otherError m =>
      rw [connectLoop_cons_other addr timeout deadline loc deserialize error
        o rest m hres] at h
      exact absurd h (by simp)

/-- C4: Whenever `connect` fails with the timeout error, the raised error
carries the requested address, the configured timeout value, and the last
transient error recorded before the failure (the default text when none
was observed). -/
theorem connect_timeout_carries_context (conns : List (String × Nat))
    (addr : String) (timeout : Int) (deserialize : Bool) (startTime : Int)
    (trace : List IterObs) (e : TimeoutError)
    (h : (connect conns addr timeout deserialize startTime trace).2
        = ConnectResult.connectTimeout e) :
    e.addr = addr ∧ e.timeout = timeout ∧
    ∃ k, k ≤ trace.length ∧
      e.error = orDefault (lastEnv none (trace.take k)) defaultTimeoutMsg := by
  unfold connect at h
  cases hp : parse_address addr with
  | none =>
    simp [hp] at h
  | some sl =>
    obtain ⟨scheme, loc⟩ := sl
    simp only [hp] at h
    cases hl : lookupScheme conns scheme with
    | none =>
      simp [hl] at h
    | some cid =>
      simp only [hl] at h
      exact connectLoop_timeout_carries addr timeout (startTime + timeout) loc
        deserialize trace none e h

theorem connect_timeout_carries_context_witness :
    (raiseTimeout "tcp://h" 3000 (some "refused")).addr = "tcp://h" ∧
    (raiseTimeout "tcp://h" 3000 (some "refused")).timeout = 3000 ∧
    ∃ k, k ≤ ([{ tAttempt := 0, result := AttemptResult.envError "refused", tCheck := 1000 },
               { tAttempt := 2000, result := AttemptResult.timedOut, tCheck := 2000 }]
                : List IterObs).length ∧
      (raiseTimeout "tcp://h" 3000 (some "refused")).error
        = orDefault
            (lastEnv none
              (([{ tAttempt := 0, result := AttemptResult.envError "refused", tCheck := 1000 },
                 { tAttempt := 2000, result := AttemptResult.timedOut, tCheck := 2000 }]
                  : List IterObs).take k))
            defaultTimeoutMsg :=
  connect_timeout_carries_context [("tcp", 0)] "tcp://h" 3000 true 0
    [{ tAttempt := 0, result := AttemptResult.envError "refused", tCheck := 1000 },
     { tAttempt := 2000, result := AttemptResult.timedOut, tCheck := 2000 }]
    (raiseTimeout "tcp://h" 3000 (some "refused")) (by decide)

end DComm
